import Mathlib

/-!
Shallow embedding of the session-routing and webhook-to-stream relay
subsystem of `app/main.py` (plus the configuration read-back function
`get_env_config_internal`), together with theorems settling the frozen
claims about it.

Conventions of the embedding:

* Python dicts read with `.get(key, default)` are represented by records
  with `Option`-typed fields; the handler bodies apply `.getD default`
  exactly where the source applies `.get(key, default)`.
* The wall clock (`datetime.now().isoformat()`) is passed in as a `now`
  string parameter.
* The module-level mutable dictionaries `browser_session_mapping`,
  `webhook_messages`, `active_connections` and the state held by the
  external key-value store are gathered in one explicit `StoreState`
  record, threaded through the handlers.
* The external store service (`app/services/redis_service.py`) is not
  part of the sources given; its operations are modelled from the spec
  (a networked key-value store with per-key get/set, append-to-list and
  delete-by-key).  An operation raises (modelled by `none`) exactly when
  the store is not connected or flagged unhealthy (`redis_ok = false`);
  the callers' `try/except` blocks are translated accordingly.
* A caught Python exception whose text is not reproducible (it embeds
  `str(e)`) is represented by the dedicated response constructor
  `Resp.exn`.
-/

namespace VapiRelay

/-- A queued chat message, as built by the webhook handlers
(`content`, `role`, `timestamp`, `source`, and for the first-registered
handler an extra `icon` entry). -/
structure MessageData where
  content : String
  role : String
  timestamp : String
  source : String
  icon : Option String
deriving Repr, DecidableEq

/-- Customer metadata stored for a registered browser session
(see `register_browser_session`). -/
structure SessionData where
  customer_domain : Option String
  customer_name : Option String
  customer_email : Option String
  company_name : Option String
  created_at : String
deriving Repr, DecidableEq

/-- The mutable state visible to the relay and the dispatcher: the
external store's keyspace (session records and per-session message
lists), and the worker-local dictionaries of `app/main.py`
(`browser_session_mapping` as an insertion-ordered association list,
`webhook_messages`, `active_connections`). `redis_connected` is the
value of `redis_service.is_connected()`; `redis_ok` models whether
store operations succeed or raise once connected. -/
structure StoreState where
  redis_connected : Bool
  redis_ok : Bool
  redis_sessions : String → Option SessionData
  redis_queues : String → List MessageData
  browser_session_mapping : List (String × SessionData)
  webhook_messages : String → List MessageData
  active_connections : String → Bool

/-- First-match lookup in an insertion-ordered association list
(Python `dict.get`). -/
def dictGet {α : Type} (d : List (String × α)) (k : String) : Option α :=
  match d with
  | [] => none
  | (k2, v) :: rest => if k2 = k then some v else dictGet rest k

/-- Python `d[k] = v` on an insertion-ordered dict: replace in place if
the key exists, else append. -/
def dictInsert {α : Type} (d : List (String × α)) (k : String) (v : α) :
    List (String × α) :=
  match d with
  | [] => [(k, v)]
  | (k2, v2) :: rest =>
      if k2 = k then (k, v) :: rest else (k2, v2) :: dictInsert rest k v

/-- Modelled from the spec: the external store's append-to-list
operation (`redis_service.add_message_to_session`), whose source file
`app/services/redis_service.py` is not among the given sources.  It
appends the message to the per-session list; it raises (here: `none`)
when the store is disconnected or unhealthy. -/
def add_message_to_session (st : StoreState) (sid : String)
    (m : MessageData) : Option StoreState :=
  if st.redis_connected && st.redis_ok then
    some { st with
      redis_queues := fun k =>
        if k = sid then st.redis_queues k ++ [m] else st.redis_queues k }
  else
    none

/-- Modelled from the spec: the external store's per-key get for session
records (`redis_service.get_session`); raises (`none`) when the store
is disconnected or unhealthy, otherwise returns the stored record
(or "not found"). -/
def get_session (st : StoreState) (sid : String) :
    Option (Option SessionData) :=
  if st.redis_connected && st.redis_ok then some (st.redis_sessions sid)
  else none

/-- Modelled from the spec: the external store's list read
(`redis_service.get_session_messages`); raises (`none`) when
disconnected or unhealthy. -/
def get_session_messages (st : StoreState) (sid : String) :
    Option (List MessageData) :=
  if st.redis_connected && st.redis_ok then some (st.redis_queues sid)
  else none

/-- Modelled from the spec: the external store's delete-by-key on the
per-session message list (`redis_client.delete("session_messages:...")`). -/
def delete_session_messages (st : StoreState) (sid : String) :
    Option StoreState :=
  if st.redis_connected && st.redis_ok then
    some { st with
      redis_queues := fun k => if k = sid then [] else st.redis_queues k }
  else
    none

/-! ## Webhook payload model

Typed rendering of the JSON shapes the two handlers inspect. -/

/-- The argument object of a `send_chat_message` invocation
(`parameters` / `function.arguments`). -/
structure ArgMap where
  message : Option String
  role : Option String
  session_id : Option String
deriving Repr, DecidableEq

/-- Python's `{}` default for a missing argument object. -/
def emptyArgMap : ArgMap := ⟨none, none, none⟩

/-- The value found under `arguments` / `parameters`: either a JSON
object (also covering a JSON string that parses to an object, since the
handlers parse it in place), or a string that does not parse to an
object, on which a later `.get` raises `AttributeError`. -/
inductive Args where
  | obj (m : ArgMap)
  | raw (s : String)
deriving Repr, DecidableEq

/-- The `function` member of a new-format tool call. -/
structure FunctionData where
  name : Option String
  arguments : Option Args
deriving Repr, DecidableEq

/-- One entry of `message.toolCalls`. -/
structure ToolCall where
  id : Option String
  function : Option FunctionData
deriving Repr, DecidableEq

/-- A legacy `functionCall` object (top-level or under `message`). -/
structure FunctionCall where
  id : Option String
  name : Option String
  parameters : Option Args
deriving Repr, DecidableEq

/-- The `message` member when it is a JSON object. -/
structure MessageObj where
  toolCalls : Option (List ToolCall)
  functionCall : Option FunctionCall
  type : Option String
  content : Option String
  role : Option String
deriving Repr, DecidableEq

/-- The `message` member: an object, or a primitive JSON value rendered
by `str(...)`. -/
inductive MessageVal where
  | obj (m : MessageObj)
  | prim (s : String)
deriving Repr, DecidableEq

/-- The `call` member of the envelope. -/
structure CallObj where
  sessionId : Option String
deriving Repr, DecidableEq

/-- The webhook envelope, restricted to the keys the handlers read. -/
structure WebhookPayload where
  type : Option String
  sessionId : Option String
  call : Option CallObj
  functionCall : Option FunctionCall
  message : Option MessageVal
deriving Repr, DecidableEq

/-- `webhook_data.get("message") if isinstance(webhook_data.get("message"), dict) else None`. -/
def messageObjOf (w : WebhookPayload) : Option MessageObj :=
  match w.message with
  | some (.obj m) => some m
  | _ => none

/-- The possible relay responses:
`jsonError m` is a bare `{"error": m}` object; `toolResults` is the
provider acknowledgement `{"results": [{"toolCallId", "result"}]}`;
`ack` is a `WebhookResponse(success, message)` whose optional `data`
carries an `error` entry; `exn` stands for a caught exception response
embedding the exception text. -/
inductive Resp where
  | jsonError (msg : String)
  | toolResults (toolCallId : String) (result : String)
  | ack (success : Bool) (message : String) (dataError : Option String)
  | exn
deriving Repr, DecidableEq

/-! ## First-registered handler

`POST /webhook/vapi/send-message`, `app/main.py` lines 470-556.  It
accepts only the new `message.toolCalls` shape, handles only
`send_chat_message`, requires a tool-argument `session_id`, and uses
only the external store ("NUR Redis - kein In-Memory Fallback"). -/

/-- The first registration of `vapi_send_message_webhook`
(`app/main.py:470`), as a function of the wall clock, the state and the
parsed payload, returning the new state and the response. -/
def vapi_send_message_webhook_v1 (now : String) (st : StoreState)
    (w : WebhookPayload) : StoreState × Resp :=
  let message_obj := messageObjOf w
  let tool_calls_list : List ToolCall :=
    match message_obj with
    | some m => m.toolCalls.getD []
    | none => []
  match tool_calls_list with
  | [] => (st, .jsonError "No tool calls found")
  | tool_call :: _ =>
    let tool_call_id := tool_call.id.getD "unknown"
    let function_data := tool_call.function.getD ⟨none, none⟩
    let function_name := function_data.name.getD ""
    let parameters := function_data.arguments.getD (.obj emptyArgMap)
    if function_name ≠ "send_chat_message" then
      (st, .jsonError ("Unknown function: " ++ function_name))
    else
      match parameters with
      | .raw _ => (st, .exn)
      | .obj p =>
        let message_content := p.message.getD ""
        let session_id := p.session_id.getD ""
        if session_id = "" ∨ message_content = "" then
          (st, .jsonError "Missing session_id or message")
        else if !st.redis_connected then
          (st, .jsonError "Redis not connected")
        else
          let message_data : MessageData :=
            ⟨message_content, "assistant", now, "vapi-tool", some "📧"⟩
          match add_message_to_session st session_id message_data with
          | some st2 =>
              (st2, .toolResults tool_call_id
                ("Message \x27" ++ message_content ++
                 "\x27 sent to session " ++ session_id))
          | none => (st, .exn)

/-! ## Second-registered handler

`POST /webhook/vapi/send-message`, `app/main.py` lines 558-813.  It
resolves an envelope-level session id, accepts both the legacy
`functionCall` and the new `message.toolCalls` shapes, looks the
session up (local memory first, then the store, with backfill), stores
the message in the store or the local queue, answers unknown tool calls
with a call-id-correlated acknowledgement, and broadcasts direct
messages to every registered session. -/

/-- Envelope-level session id extraction (`app/main.py:582-586`):
top-level `sessionId`, else `call.sessionId`. -/
def envelopeSessionId (w : WebhookPayload) : Option String :=
  match w.sessionId with
  | some s => some s
  | none =>
    match w.call with
    | some c => c.sessionId
    | none => none

/-- Session lookup with local-memory fast path, store fallback and
local backfill (`app/main.py:675-689`).  Returns `none` when the store
read raises (connected but unhealthy); otherwise the found record (if
any) and the possibly backfilled state. -/
def sessionLookup (st : StoreState) (sid : String) :
    Option (Option SessionData × StoreState) :=
  match dictGet st.browser_session_mapping sid with
  | some info => some (some info, st)
  | none =>
    if st.redis_connected then
      match get_session st sid with
      | none => none
      | some (some info) =>
          some (some info,
            { st with browser_session_mapping :=
                dictInsert st.browser_session_mapping sid info })
      | some none => some (none, st)
    else
      some (none, st)

/-- Append a message to the worker-local queue
(`webhook_messages[sid].append`, with the `[]` initialisation for a
missing key). -/
def memAppend (q : String → List MessageData) (sid : String)
    (m : MessageData) : String → List MessageData :=
  fun k => if k = sid then q k ++ [m] else q k

/-- The store-or-memory enqueue block of the second handler
(`app/main.py:699-714`): store in the external store when connected,
else in memory; a raising store write falls back to memory. -/
def storeMessageForSession (st : StoreState) (sid : String)
    (m : MessageData) : StoreState :=
  if st.redis_connected then
    match add_message_to_session st sid m with
    | some st2 => st2
    | none => { st with webhook_messages := memAppend st.webhook_messages sid m }
  else
    { st with webhook_messages := memAppend st.webhook_messages sid m }

/-- The broadcast loop over the external store
(`app/main.py:774-777`): append the message to each registered
session's store list, in registration order. -/
def redisBroadcastLoop (q : String → List MessageData)
    (keys : List String) (m : MessageData) : String → List MessageData :=
  match keys with
  | [] => q
  | k :: rest => redisBroadcastLoop (memAppend q k m) rest m

/-- The broadcast loop over the local queues (`app/main.py:781-784`). -/
def memBroadcastLoop (q : String → List MessageData)
    (keys : List String) (m : MessageData) : String → List MessageData :=
  match keys with
  | [] => q
  | k :: rest => memBroadcastLoop (memAppend q k m) rest m

/-- The direct-message broadcast (`app/main.py:772-785`): try the store
for every registered session; if the store write raises, fall back to
the local queues for every registered session.  With an empty registry
the loop body never runs, so nothing raises and nothing is stored. -/
def broadcastStore (st : StoreState) (m : MessageData) : StoreState :=
  let keys := st.browser_session_mapping.map Prod.fst
  if st.redis_connected && st.redis_ok then
    { st with redis_queues := redisBroadcastLoop st.redis_queues keys m }
  else
    match keys with
    | [] => st
    | _ :: _ =>
        { st with webhook_messages := memBroadcastLoop st.webhook_messages keys m }

/-- The tool-call processing of the second handler, after the function
name, parameters and call id have been extracted
(`app/main.py:647-748`). -/
def processToolCall (now : String) (st : StoreState)
    (session_id : Option String) (function_name : String)
    (parameters : Args) (tool_call_id : String) : StoreState × Resp :=
  if function_name = "send_chat_message" then
    match parameters with
    | .raw _ => (st, .exn)
    | .obj p =>
      let message_content := p.message.getD ""
      let message_role := p.role.getD "assistant"
      let tool_session_id := p.session_id.getD ""
      let final_session_id : Option String :=
        if tool_session_id ≠ "" then some tool_session_id else session_id
      match final_session_id with
      | none =>
          (st, .ack false
            "No session ID provided - cannot route message to specific chat"
            (some "missing_session_id"))
      | some fsid =>
        if fsid = "" then
          (st, .ack false
            "No session ID provided - cannot route message to specific chat"
            (some "missing_session_id"))
        else
          match sessionLookup st fsid with
          | none => (st, .exn)
          | some (_, st1) =>
            let message_data : MessageData :=
              ⟨message_content, message_role, now, "voice-function", none⟩
            let st2 := storeMessageForSession st1 fsid message_data
            (st2, .toolResults tool_call_id
              ("Message \x27" ++ message_content ++
               "\x27 successfully routed to session " ++ fsid))
  else
    (st, .toolResults tool_call_id
      ("Unknown tool call \x27" ++ function_name ++ "\x27 received"))

/-- The second registration of `vapi_send_message_webhook`
(`app/main.py:558`).  Classifies the payload as tool-call, direct
message, or unrecognized, and dispatches accordingly. -/
def vapi_send_message_webhook_v2 (now : String) (st : StoreState)
    (w : WebhookPayload) : StoreState × Resp :=
  let session_id := envelopeSessionId w
  let message_obj := messageObjOf w
  let function_call : Option FunctionCall :=
    match w.functionCall with
    | some fc => some fc
    | none =>
      match message_obj with
      | some m => m.functionCall
      | none => none
  let tool_calls_list : Option (List ToolCall) :=
    match message_obj with
    | some m => m.toolCalls
    | none => none
  let is_tool_call : Bool :=
    function_call.isSome ||
    (match tool_calls_list with
     | some l => !l.isEmpty
     | none => false) ||
    (match message_obj with
     | some m => m.type == some "tool-calls"
     | none => false)
  if is_tool_call then
    match w.functionCall with
    | some fc =>
        processToolCall now st session_id (fc.name.getD "")
          (fc.parameters.getD (.obj emptyArgMap)) (fc.id.getD "unknown")
    | none =>
      let tool_calls : List ToolCall :=
        match message_obj with
        | some m => m.toolCalls.getD []
        | none => []
      match tool_calls with
      | [] => (st, .ack false "No tool calls found" none)
      | fc :: _ =>
        let fd := fc.function.getD ⟨none, none⟩
        processToolCall now st session_id (fd.name.getD "")
          (fd.arguments.getD (.obj emptyArgMap)) (fc.id.getD "unknown")
  else
    match w.message with
    | some mv =>
      let message_content :=
        match mv with
        | .obj m => m.content.getD ""
        | .prim s => s
      let message_role :=
        match mv with
        | .obj m => m.role.getD "assistant"
        | .prim _ => "assistant"
      let st2 :=
        if message_content ≠ "" then
          broadcastStore st
            ⟨message_content, message_role, now, "voice-function", none⟩
        else st
      (st2, .ack true
        "Direct message processed and broadcasted to all sessions" none)
    | none =>
      (st, .ack true "Unknown webhook format received" none)

/-! ## Streaming dispatcher

`GET /api/message-stream/{browser_session_id}`, `app/main.py:408-467`.
One iteration of the `event_generator` poll loop is modelled as a
function from the state and the heartbeat counter to an ordered trace
of observable effects, the new state and the new counter.  The trace
order records which effects happen before which (in particular where
the destructive deletion falls relative to the client flush). -/

/-- Observable effects of one dispatcher tick, in program order:
`clearMem` is the in-memory `webhook_messages[sid] = []` reset,
`emit` is one `data: ...` SSE frame yielded to the client,
`deleteRedis` is the store-side delete of the session's message list,
`keepAlive` is the comment-only `: keep-alive` frame. -/
inductive TickEvent where
  | clearMem (sid : String)
  | emit (m : MessageData)
  | deleteRedis (sid : String)
  | keepAlive
deriving Repr, DecidableEq

/-- One iteration of `message_stream.event_generator`
(`app/main.py:421-450`), excluding the final sleep: drain the queue
(store when connected, else memory), yield each message, delete the
store key after the yields when messages were sent, then bump the
heartbeat counter and emit a keep-alive at the threshold.  `none` means
a store operation raised (connected but unhealthy), which would kill
the stream. -/
def dispatchTick (st : StoreState) (sid : String) (hb : Nat) :
    Option (List TickEvent × StoreState × Nat) :=
  let hbStep : List TickEvent × StoreState → List TickEvent × StoreState × Nat :=
    fun pr =>
      if hb + 1 ≥ 15 then (pr.1 ++ [TickEvent.keepAlive], pr.2, 0)
      else (pr.1, pr.2, hb + 1)
  if st.redis_connected then
    match get_session_messages st sid with
    | none => none
    | some messages =>
      if messages.isEmpty then
        some (hbStep (messages.map TickEvent.emit, st))
      else
        match delete_session_messages st sid with
        | none => none
        | some st2 =>
            some (hbStep
              (messages.map TickEvent.emit ++ [TickEvent.deleteRedis sid], st2))
  else
    if (st.webhook_messages sid).isEmpty then
      some (hbStep ([], st))
    else
      let messages := st.webhook_messages sid
      let st1 := { st with
        webhook_messages := fun k => if k = sid then [] else st.webhook_messages k }
      some (hbStep (TickEvent.clearMem sid :: messages.map TickEvent.emit, st1))

/-- The data frames of a tick trace, in emission order. -/
def tickEmits (evs : List TickEvent) : List MessageData :=
  evs.filterMap (fun e =>
    match e with
    | .emit m => some m
    | _ => none)

/-- Stream opening stores the local active-connection marker
(`active_connections[browser_session_id] = True`, `app/main.py:417`). -/
def streamOpen (st : StoreState) (sid : String) : StoreState :=
  { st with active_connections := fun k =>
      if k = sid then true else st.active_connections k }

/-- The `asyncio.CancelledError` handler of the stream
(`app/main.py:451-454`): drop the session's local active-connection
marker if present, then re-raise.  The returned `Bool` records that the
cancellation is propagated (the unconditional `raise`). -/
def streamCancel (st : StoreState) (sid : String) : StoreState × Bool :=
  if st.active_connections sid then
    ({ st with active_connections := fun k =>
        if k = sid then false else st.active_connections k }, true)
  else
    (st, true)

/-! ## Fixtures and composition helpers -/

/-- A store state assembled from its parts, with empty keyspaces; used
to build concrete scenarios. -/
def exState (conn ok : Bool) (mapping : List (String × SessionData)) :
    StoreState :=
  ⟨conn, ok, fun _ => none, fun _ => [], mapping, fun _ => [], fun _ => false⟩

/-- Example customer record (spec §8 scenario: `{customer_name: "Jane"}`). -/
def exSessionData : SessionData := ⟨none, some "Jane", none, none, "t0"⟩

/-- A new-format tool-call envelope (`message.toolCalls` with one
entry), with an optional top-level `sessionId`. -/
def toolCallPayload (env : Option String) (cid name : String)
    (args : Args) : WebhookPayload :=
  ⟨none, env, none, none,
   some (.obj ⟨some [⟨some cid, some ⟨some name, some args⟩⟩],
     none, none, none, none⟩)⟩

/-- A legacy tool-call envelope (top-level `functionCall`), with an
optional top-level `sessionId`. -/
def legacyToolCallPayload (env : Option String) (cid name : String)
    (args : Args) : WebhookPayload :=
  ⟨none, env, none, some ⟨some cid, some name, some args⟩, none⟩

/-- A direct (non-tool-call) message envelope. -/
def directMessagePayload (content role : Option String) : WebhookPayload :=
  ⟨none, none, none, none, some (.obj ⟨none, none, none, content, role⟩)⟩

/-- A sequence of webhook enqueues for one session: the second
handler's enqueue block applied once per message, in order. -/
def enqueueAll (st : StoreState) (sid : String) (ms : List MessageData) :
    StoreState :=
  ms.foldl (fun s m => storeMessageForSession s sid m) st

/-- A concrete queued message. -/
def exMsg : MessageData := ⟨"Hello", "assistant", "t1", "voice-function", none⟩

/-- Connected store with one message queued for session `abc123`. -/
def exStQ : StoreState :=
  ⟨true, true, fun _ => none,
   fun k => if k = "abc123" then [exMsg] else [], [], fun _ => [],
   fun _ => false⟩

/-- Disconnected store with one message in the local queue of session
`abc123`. -/
def exStM : StoreState :=
  ⟨false, true, fun _ => none, fun _ => [], [],
   fun k => if k = "abc123" then [exMsg] else [], fun _ => false⟩

end VapiRelay

namespace EnvConfig

/-! ## Configuration read-back

`get_env_config_internal` (`app/main.py:1377-1488`), served by
`GET /api/env-config` (`app/main.py:1490-1493`) and, after the password
check, by `POST /api/secure-config` (`app/main.py:1360-1375`).  The
function reads credentials from the cached settings object and, when
settings cannot be loaded, falls back to scanning the flat `.env` file;
a missing `.env` file behaves like an empty one, so the fallback is
modelled by the list of lines read. -/

/-- Python's `str.strip()`: remove leading and trailing whitespace.
Stated on the character list so that concrete instances reduce. -/
def pyStrip (s : String) : String :=
  ⟨((s.data.dropWhile Char.isWhitespace).reverse.dropWhile
      Char.isWhitespace).reverse⟩

/-- Python's `str.startswith(pre)`. -/
def pyStartsWith (s pre : String) : Bool := pre.data.isPrefixOf s.data

/-- Drop the first `n` characters (used for `line.split("=", 1)[1]`
after a successful `startswith(KEY)` check: the scanned keys contain
exactly one `=`, at the end, so the text after the first `=` is the
line without its first `len(KEY)` characters). -/
def pyDrop (s : String) (n : Nat) : String := ⟨s.data.drop n⟩

/-- The settings fields `get_env_config_internal` reads on the
settings path (`app/config.py` `AppSettings`, restricted to the fields
accessed in `app/main.py:1384-1431`). -/
structure AppSettings where
  assistant_id : String
  public_key : String
  vapi_private_key : String
  facebook_business_whatsapp : String
  calendly_link : String
  analyzed_domain : String
  company_name : String
  primary_color : String
  secondary_color : String
  accent_color : String
  logo_url : String
deriving Repr, DecidableEq

/-- Result of the first `.env` fallback scan
(`app/main.py:1393-1403`): the three credential values. -/
structure CredFields where
  assistant_id : String
  public_key : String
  private_key : String
deriving Repr, DecidableEq

/-- Result of the second `.env` fallback scan
(`app/main.py:1434-1467`): the non-credential values. -/
structure SiteFields where
  facebook_business_whatsapp : String
  calendly_link : String
  analyzed_domain : String
  company_name : String
  website_url : String
  support_email : String
  impressum_url : String
  privacy_policy_url : String
  terms_url : String
  hero_title : String
  hero_text : String
  primary_color : String
  secondary_color : String
  accent_color : String
  logo_url : String
deriving Repr, DecidableEq

/-- One line of the first fallback scan: strip the line and, when it
starts with one of the credential keys, keep everything after the first
`=` (the keys contain exactly one `=`, at the end, so
`line.split("=", 1)[1]` is the text after the key). -/
def credStep (acc : CredFields) (line0 : String) : CredFields :=
  let line := pyStrip line0
  if pyStartsWith line "ASSISTANT_ID=" then
    { acc with assistant_id := pyDrop line 13 }
  else if pyStartsWith line "PUBLIC_KEY=" then
    { acc with public_key := pyDrop line 11 }
  else if pyStartsWith line "VAPI_PRIVATE_KEY=" then
    { acc with private_key := pyDrop line 17 }
  else acc

/-- One line of the second fallback scan (`app/main.py:1436-1467`). -/
def siteStep (acc : SiteFields) (line0 : String) : SiteFields :=
  let line := pyStrip line0
  if pyStartsWith line "FACEBOOK_BUSINESS_WHATSAPP=" then
    { acc with facebook_business_whatsapp := pyDrop line 27 }
  else if pyStartsWith line "CALENDLY_LINK=" then
    { acc with calendly_link := pyDrop line 14 }
  else if pyStartsWith line "ANALYZED_DOMAIN=" then
    { acc with analyzed_domain := pyDrop line 16 }
  else if pyStartsWith line "COMPANY_NAME=" then
    { acc with company_name := pyDrop line 13 }
  else if pyStartsWith line "WEBSITE_URL=" then
    { acc with website_url := pyDrop line 12 }
  else if pyStartsWith line "SUPPORT_EMAIL=" then
    { acc with support_email := pyDrop line 14 }
  else if pyStartsWith line "IMPRESSUM_URL=" then
    { acc with impressum_url := pyDrop line 14 }
  else if pyStartsWith line "PRIVACY_POLICY_URL=" then
    { acc with privacy_policy_url := pyDrop line 19 }
  else if pyStartsWith line "TERMS_URL=" then
    { acc with terms_url := pyDrop line 10 }
  else if pyStartsWith line "HERO_TITLE=" then
    { acc with hero_title := pyDrop line 11 }
  else if pyStartsWith line "HERO_TEXT=" then
    { acc with hero_text := pyDrop line 10 }
  else if pyStartsWith line "PRIMARY_COLOR=" then
    { acc with primary_color := pyDrop line 14 }
  else if pyStartsWith line "SECONDARY_COLOR=" then
    { acc with secondary_color := pyDrop line 16 }
  else if pyStartsWith line "ACCENT_COLOR=" then
    { acc with accent_color := pyDrop line 13 }
  else if pyStartsWith line "LOGO_URL=" then
    { acc with logo_url := pyDrop line 9 }
  else acc

/-- Where the configuration values come from: the loaded settings
object (the normal path), or — when loading settings raises — the raw
lines of the `.env` file. -/
inductive ConfigSource where
  | settings (s : AppSettings)
  | envFile (lines : List String)
deriving Repr, DecidableEq

/-- The dict literal returned at `app/main.py:1469-1488`.  The
`privateKey` entry is commented out in the source ("REMOVED: Private
key should never be exposed to frontend"), so the private key read
earlier in the function never reaches the result. -/
def configDict (assistant_id public_key : String) (site : SiteFields) :
    List (String × String) :=
  [("assistantId", assistant_id),
   ("publicKey", public_key),
   ("facebookBusinessWhatsApp", site.facebook_business_whatsapp),
   ("calendlyLink", site.calendly_link),
   ("analyzedDomain", site.analyzed_domain),
   ("companyName", site.company_name),
   ("websiteUrl", site.website_url),
   ("supportEmail", site.support_email),
   ("impressumUrl", site.impressum_url),
   ("privacyPolicyUrl", site.privacy_policy_url),
   ("termsUrl", site.terms_url),
   ("heroTitle", site.hero_title),
   ("heroText", site.hero_text),
   ("primaryColor", site.primary_color),
   ("secondaryColor", site.secondary_color),
   ("accentColor", site.accent_color),
   ("logoUrl", site.logo_url)]

/-- `get_env_config_internal` (`app/main.py:1377-1488`).  On the
settings path only the fields copied at lines 1385-1386 and 1423-1431
are populated (`websiteUrl` through `heroText` stay `""` there); on the
fallback path both `.env` scans run.  The private key is read into a
local on both paths (`settings.vapi_private_key`, resp. the
`VAPI_PRIVATE_KEY=` line) but is not part of the returned dict. -/
def get_env_config_internal (src : ConfigSource) : List (String × String) :=
  match src with
  | .settings s =>
      configDict s.assistant_id s.public_key
        { facebook_business_whatsapp := s.facebook_business_whatsapp
          calendly_link := s.calendly_link
          analyzed_domain := s.analyzed_domain
          company_name := s.company_name
          website_url := ""
          support_email := ""
          impressum_url := ""
          privacy_policy_url := ""
          terms_url := ""
          hero_title := ""
          hero_text := ""
          primary_color := s.primary_color
          secondary_color := s.secondary_color
          accent_color := s.accent_color
          logo_url := s.logo_url }
  | .envFile lines =>
      let creds := lines.foldl credStep ⟨"", "", ""⟩
      let site := lines.foldl siteStep ⟨"", "", "", "", "", "", "", "", "", "", "", "", "", "", ""⟩
      configDict creds.assistant_id creds.public_key site

/-- `GET /api/env-config` (`app/main.py:1490-1493`) returns the
internal dict unchanged. -/
def get_env_config (src : ConfigSource) : List (String × String) :=
  get_env_config_internal src

/-- `POST /api/secure-config` (`app/main.py:1360-1375`): after the
password gate (HTTP errors when the configured password is empty or the
submitted one differs), return the same internal dict. -/
def get_secure_config (config_password password : String)
    (src : ConfigSource) : Option (List (String × String)) :=
  if config_password = "" then none
  else if password ≠ config_password then none
  else some (get_env_config_internal src)

end EnvConfig

/-! # Theorems -/

open VapiRelay

/-! ## Helper lemmas -/

/-- Envelope extraction on the new-format builder yields the supplied
top-level session id. -/
theorem envelopeSessionId_toolCallPayload (env : Option String)
    (cid name : String) (args : Args) :
    envelopeSessionId (toolCallPayload env cid name args) = env := by
  cases env <;> rfl

/-- Envelope extraction on the legacy builder yields the supplied
top-level session id. -/
theorem envelopeSessionId_legacyPayload (env : Option String)
    (cid name : String) (args : Args) :
    envelopeSessionId (legacyToolCallPayload env cid name args) = env := by
  cases env <;> rfl

/-- The second handler on a new-format tool-call payload reduces to
`processToolCall` with the payload's pieces. -/
theorem v2_on_toolCallPayload (now : String) (st : StoreState)
    (env : Option String) (cid name : String) (args : Args) :
    vapi_send_message_webhook_v2 now st (toolCallPayload env cid name args)
      = processToolCall now st env name args cid := by
  cases env <;> rfl

/-- The second handler on a legacy tool-call payload reduces to
`processToolCall` with the payload's pieces. -/
theorem v2_on_legacyPayload (now : String) (st : StoreState)
    (env : Option String) (cid name : String) (args : Args) :
    vapi_send_message_webhook_v2 now st (legacyToolCallPayload env cid name args)
      = processToolCall now st env name args cid := by
  cases env <;> rfl

/-- With the store disconnected, `sessionLookup` never touches it: it
returns the local view and leaves the state unchanged. -/
theorem sessionLookup_disconnected (st : StoreState) (sid : String)
    (hconn : st.redis_connected = false) :
    sessionLookup st sid
      = some (dictGet st.browser_session_mapping sid, st) := by
  unfold sessionLookup
  cases h : dictGet st.browser_session_mapping sid <;> simp [hconn]

/-- `sessionLookup` succeeds whenever the store is healthy when
connected, and it never modifies the queues, the store keyspace or the
connectivity flags (it can only backfill the local session mapping). -/
theorem sessionLookup_spec (st : StoreState) (sid : String)
    (hok : st.redis_connected = true → st.redis_ok = true) :
    ∃ info st1, sessionLookup st sid = some (info, st1)
      ∧ st1.redis_connected = st.redis_connected
      ∧ st1.redis_ok = st.redis_ok
      ∧ st1.webhook_messages = st.webhook_messages
      ∧ st1.redis_queues = st.redis_queues
      ∧ st1.redis_sessions = st.redis_sessions := by
  cases hmem : dictGet st.browser_session_mapping sid with
  | some info =>
      exact ⟨some info, st, by simp [sessionLookup, hmem], rfl, rfl, rfl,
        rfl, rfl⟩
  | none =>
    cases hconn : st.redis_connected with
    | false =>
        exact ⟨none, st, by simp [sessionLookup, hmem, hconn], hconn, rfl,
          rfl, rfl, rfl⟩
    | true =>
      have hok2 := hok hconn
      cases hs : st.redis_sessions sid with
      | some info =>
        refine ⟨some info,
          { st with browser_session_mapping :=
              dictInsert st.browser_session_mapping sid info },
          ?_, hconn, rfl, rfl, rfl, rfl⟩
        simp [sessionLookup, hmem, hconn, get_session, hok2, hs]
      | none =>
        exact ⟨none, st,
          by simp [sessionLookup, hmem, hconn, get_session, hok2, hs],
          hconn, rfl, rfl, rfl, rfl⟩

/-- `dictInsert` makes the inserted key immediately visible. -/
theorem dictGet_dictInsert_self {α : Type} (d : List (String × α))
    (k : String) (v : α) : dictGet (dictInsert d k v) k = some v := by
  induction d with
  | nil => simp [dictInsert, dictGet]
  | cons hd tl ih =>
    by_cases h : hd.1 = k
    · simp [dictInsert, dictGet, h]
    · simp [dictInsert, dictGet, h, ih]

/-- Claim C9: on stream cancellation, the session's local
active-connection marker is removed and the cancellation is propagated
(the unconditional re-raise), while every message queue — in-memory and
store-side — the session registry and every other session's marker are
left untouched. -/
theorem C9_cancellation_cleanup (st : StoreState) (sid : String) :
    (streamCancel st sid).1.active_connections sid = false
    ∧ (streamCancel st sid).2 = true
    ∧ (streamCancel st sid).1.webhook_messages = st.webhook_messages
    ∧ (streamCancel st sid).1.redis_queues = st.redis_queues
    ∧ (streamCancel st sid).1.browser_session_mapping = st.browser_session_mapping
    ∧ (streamCancel st sid).1.redis_sessions = st.redis_sessions
    ∧ ∀ k, k ≠ sid →
        (streamCancel st sid).1.active_connections k = st.active_connections k := by
  unfold streamCancel
  cases h : st.active_connections sid with
  | false => exact ⟨h, rfl, rfl, rfl, rfl, rfl, fun k _ => rfl⟩
  | true =>
    refine ⟨by simp, rfl, rfl, rfl, rfl, rfl, fun k hk => by simp [hk]⟩

/-- Witness for C9 at a concrete open stream. -/
theorem C9_cancellation_cleanup_witness :
    (streamCancel (streamOpen (exState true true []) "abc123") "abc123").1.active_connections "other"
      = (streamOpen (exState true true []) "abc123").active_connections "other" :=
  (C9_cancellation_cleanup (streamOpen (exState true true []) "abc123")
    "abc123").2.2.2.2.2.2 "other" (by decide)

open EnvConfig in
/-- Claim C10: the configuration read-back never exposes the private
key: the dict built by `get_env_config_internal` carries no
`privateKey` entry for any configuration source, configurations
differing only in `vapi_private_key` give identical responses (likewise
for `.env` files differing only in the `VAPI_PRIVATE_KEY=` line), and
`GET /api/env-config` returns that dict unchanged. -/
theorem C10_private_key_never_exposed :
    (∀ src : ConfigSource,
      ((get_env_config_internal src).map Prod.fst).contains "privateKey" = false)
    ∧ (∀ (s : AppSettings) (k : String),
        get_env_config_internal (.settings { s with vapi_private_key := k })
          = get_env_config_internal (.settings s))
    ∧ get_env_config_internal
        (.envFile ["ASSISTANT_ID=aid", "VAPI_PRIVATE_KEY=secret-A", "COMPANY_NAME=acme"])
        = get_env_config_internal
        (.envFile ["ASSISTANT_ID=aid", "VAPI_PRIVATE_KEY=secret-B", "COMPANY_NAME=acme"])
    ∧ (∀ src : ConfigSource, get_env_config src = get_env_config_internal src) := by
  refine ⟨fun src => ?_, fun s k => rfl, by decide, fun src => rfl⟩
  cases src <;> rfl

/-- `keepAlive` never occurs among data frames. -/
theorem count_keepAlive_map_emit (ms : List MessageData) :
    (ms.map TickEvent.emit).count TickEvent.keepAlive = 0 := by
  induction ms with
  | nil => rfl
  | cons m t ih => simpa [List.count_cons] using ih

/-- Claim C2 counterexample: with the store connected and one message
queued, the tick's effect order is emit-then-delete — the store-side
deletion happens only after the message has been flushed to the
client, contradicting "deleted immediately after being read, before it
is flushed ... in both the external-store path and the in-memory
path". -/
theorem C2_delete_after_flush_counterexample :
    (dispatchTick exStQ "abc123" 0).map (fun r => r.1)
      = some [TickEvent.emit exMsg, TickEvent.deleteRedis "abc123"] := by
  decide

/-- Claim C2 (amended): each tick drains the whole queue destructively,
but the deletion order differs by path: the in-memory path clears the
queue before the messages are flushed, while the external-store path
deletes the store key only after the whole batch has been flushed; in
both paths the session's queue is empty afterwards. -/
theorem C2_destructive_drain (st : StoreState) (sid : String) (hb : Nat)
    (hok : st.redis_ok = true) :
    (st.redis_connected = false →
      (st.webhook_messages sid).isEmpty = false →
      (dispatchTick st sid hb).map (fun r => r.1)
        = some (TickEvent.clearMem sid ::
            (st.webhook_messages sid).map TickEvent.emit
            ++ (if hb + 1 ≥ 15 then [TickEvent.keepAlive] else []))
      ∧ (dispatchTick st sid hb).map (fun r => r.2.1.webhook_messages sid)
        = some [])
    ∧ (st.redis_connected = true →
      (st.redis_queues sid).isEmpty = false →
      (dispatchTick st sid hb).map (fun r => r.1)
        = some ((st.redis_queues sid).map TickEvent.emit
            ++ [TickEvent.deleteRedis sid]
            ++ (if hb + 1 ≥ 15 then [TickEvent.keepAlive] else []))
      ∧ (dispatchTick st sid hb).map (fun r => r.2.1.redis_queues sid)
        = some []) := by
  constructor
  · intro hconn hne
    by_cases hhb : hb + 1 ≥ 15 <;>
      simp [dispatchTick, hconn, hne, hhb]
  · intro hconn hne
    by_cases hhb : hb + 1 ≥ 15 <;>
      simp [dispatchTick, get_session_messages, delete_session_messages,
        hconn, hok, hne, hhb]

/-- Witness for C2 on the in-memory path at a concrete state. -/
theorem C2_destructive_drain_witness :
    (dispatchTick exStM "abc123" 0).map (fun r => r.1)
      = some (TickEvent.clearMem "abc123" ::
          (exStM.webhook_messages "abc123").map TickEvent.emit
          ++ (if 0 + 1 ≥ 15 then [TickEvent.keepAlive] else [])) :=
  ((C2_destructive_drain exStM "abc123" 0 rfl).1 rfl rfl).1

/-- Claim C5 counterexample: on the 15th tick with a message pending,
the tick both flushes the message and emits the keep-alive frame —
contradicting "only when no regular data is pending on that tick". -/
theorem C5_keepalive_with_pending_data_counterexample :
    (dispatchTick exStQ "abc123" 14).map (fun r => r.1)
      = some [TickEvent.emit exMsg, TickEvent.deleteRedis "abc123",
          TickEvent.keepAlive] := by
  decide

/-- Claim C5 (amended): the keep-alive frame is emitted exactly on
every 15th tick — whether or not data was flushed on that tick — and
the counter then resets; a tick that drains an empty queue yields zero
events of any kind unless the counter reaches the threshold, in which
case it yields exactly the keep-alive frame. -/
theorem C5_keepalive_cadence (st : StoreState) (sid : String) (hb : Nat)
    (hok : st.redis_ok = true) :
    ((dispatchTick st sid hb).map
        (fun r => (r.1.count TickEvent.keepAlive, r.2.2))
      = some (if hb + 1 ≥ 15 then (1, 0) else (0, hb + 1)))
    ∧ ((if st.redis_connected then st.redis_queues sid
        else st.webhook_messages sid) = [] →
      (dispatchTick st sid hb).map (fun r => r.1)
        = some (if hb + 1 ≥ 15 then [TickEvent.keepAlive] else [])) := by
  constructor
  · cases hconn : st.redis_connected with
    | false =>
      by_cases hne : (st.webhook_messages sid).isEmpty <;>
        by_cases hhb : hb + 1 ≥ 15 <;>
          simp [dispatchTick, hconn, hne, hhb, List.count_cons,
            count_keepAlive_map_emit]
    | true =>
      by_cases hne : (st.redis_queues sid).isEmpty <;>
        by_cases hhb : hb + 1 ≥ 15 <;>
          simp [dispatchTick, get_session_messages, delete_session_messages,
            hconn, hok, hne, hhb, List.count_append,
            count_keepAlive_map_emit]
  · intro hempty
    cases hconn : st.redis_connected with
    | false =>
      rw [hconn] at hempty
      have hempty2 : st.webhook_messages sid = [] := by simpa using hempty
      by_cases hhb : hb + 1 ≥ 15 <;>
        simp [dispatchTick, hconn, hempty2, hhb]
    | true =>
      rw [hconn] at hempty
      have hempty2 : st.redis_queues sid = [] := by simpa using hempty
      by_cases hhb : hb + 1 ≥ 15 <;>
        simp [dispatchTick, get_session_messages, hconn, hok, hempty2, hhb]

/-- Witness for C5 at a concrete empty-queue state below the threshold. -/
theorem C5_keepalive_cadence_witness :
    (dispatchTick (exState true true []) "abc123" 3).map (fun r => r.1)
      = some (if 3 + 1 ≥ 15 then [TickEvent.keepAlive] else []) :=
  (C5_keepalive_cadence (exState true true []) "abc123" 3 rfl).2 rfl

/-- The local-queue append really appends at the session's key. -/
theorem memAppend_self (q : String → List MessageData) (sid : String)
    (m : MessageData) : memAppend q sid m sid = q sid ++ [m] := by
  simp [memAppend]

/-- With the store disconnected, the enqueue block stores into the
local queue. -/
theorem storeMessageForSession_disconnected (st : StoreState)
    (sid : String) (m : MessageData) (hconn : st.redis_connected = false) :
    storeMessageForSession st sid m
      = { st with webhook_messages := memAppend st.webhook_messages sid m } := by
  simp [storeMessageForSession, hconn]

/-- With the store connected and healthy, the enqueue block appends to
the store-side list. -/
theorem storeMessageForSession_connected (st : StoreState)
    (sid : String) (m : MessageData) (hconn : st.redis_connected = true)
    (hok : st.redis_ok = true) :
    storeMessageForSession st sid m
      = { st with redis_queues := fun k =>
            if k = sid then st.redis_queues k ++ [m] else st.redis_queues k } := by
  simp [storeMessageForSession, add_message_to_session, hconn, hok]

/-- The enqueue block never changes the connectivity flags, the
session registry or the store's session records. -/
theorem storeMessageForSession_flags (st : StoreState) (sid : String)
    (m : MessageData) :
    (storeMessageForSession st sid m).redis_connected = st.redis_connected
    ∧ (storeMessageForSession st sid m).redis_ok = st.redis_ok := by
  unfold storeMessageForSession add_message_to_session
  cases hc : st.redis_connected <;> cases ho : st.redis_ok <;> simp [hc, ho]

/-- `processToolCall` on `send_chat_message` with a session id in the
tool arguments: the message is handed to the enqueue block for that
session id — whatever the envelope says — after a lookup that can only
backfill the registry, and the response is the call-id-correlated
success acknowledgement naming that session. -/
theorem processToolCall_send_toolSid (now : String) (st : StoreState)
    (env : Option String) (p : ArgMap) (cid sid : String)
    (hok : st.redis_connected = true → st.redis_ok = true)
    (hsid : p.session_id = some sid) (hne : sid ≠ "") :
    ∃ st1, processToolCall now st env "send_chat_message" (.obj p) cid
        = (storeMessageForSession st1 sid
            ⟨p.message.getD "", p.role.getD "assistant", now,
             "voice-function", none⟩,
           .toolResults cid ("Message \x27" ++ p.message.getD "" ++
             "\x27 successfully routed to session " ++ sid))
      ∧ st1.redis_connected = st.redis_connected
      ∧ st1.redis_ok = st.redis_ok
      ∧ st1.webhook_messages = st.webhook_messages
      ∧ st1.redis_queues = st.redis_queues := by
  obtain ⟨info, st1, heq, hc, ho, hwm, hrq, _⟩ := sessionLookup_spec st sid hok
  refine ⟨st1, ?_, hc, ho, hwm, hrq⟩
  simp [processToolCall, hsid, hne, heq]

/-- `processToolCall` on `send_chat_message` with no usable session id
in the tool arguments but one in the envelope: the envelope id is the
destination. -/
theorem processToolCall_send_envSid (now : String) (st : StoreState)
    (p : ArgMap) (cid sid : String)
    (hok : st.redis_connected = true → st.redis_ok = true)
    (hsid : p.session_id.getD "" = "") (hne : sid ≠ "") :
    ∃ st1, processToolCall now st (some sid) "send_chat_message" (.obj p) cid
        = (storeMessageForSession st1 sid
            ⟨p.message.getD "", p.role.getD "assistant", now,
             "voice-function", none⟩,
           .toolResults cid ("Message \x27" ++ p.message.getD "" ++
             "\x27 successfully routed to session " ++ sid))
      ∧ st1.redis_connected = st.redis_connected
      ∧ st1.redis_ok = st.redis_ok
      ∧ st1.webhook_messages = st.webhook_messages
      ∧ st1.redis_queues = st.redis_queues := by
  obtain ⟨info, st1, heq, hc, ho, hwm, hrq, _⟩ := sessionLookup_spec st sid hok
  refine ⟨st1, ?_, hc, ho, hwm, hrq⟩
  simp [processToolCall, hsid, hne, heq]

/-- The first handler rejects a fully-formed `send_chat_message`
tool-call outright when the store is not connected. -/
theorem v1_store_required (now : String) (st : StoreState)
    (env : Option String) (cid msg sid : String) (role : Option String)
    (hconn : st.redis_connected = false) (hmsg : msg ≠ "") (hsid : sid ≠ "") :
    vapi_send_message_webhook_v1 now st
        (toolCallPayload env cid "send_chat_message"
          (.obj ⟨some msg, role, some sid⟩))
      = (st, .jsonError "Redis not connected") := by
  simp [vapi_send_message_webhook_v1, toolCallPayload, messageObjOf,
    hconn, hmsg, hsid]

/-- Claim C1 counterexample: a `send_chat_message` tool-call with an
explicit destination session id, hitting the route while the external
store is unreachable: the first-registered handler — which serves the
route — answers with an error object and enqueues nothing (the state
is returned unchanged), instead of falling back to the local queue and
acknowledging success. -/
theorem C1_store_unreachable_counterexample :
    vapi_send_message_webhook_v1 "t1" exStM
        (toolCallPayload none "call-1" "send_chat_message"
          (.obj ⟨some "Hello", none, some "abc123"⟩))
      = (exStM, .jsonError "Redis not connected") :=
  v1_store_required "t1" exStM none "call-1" "Hello" "abc123" none rfl
    (by decide) (by decide)

/-- Claim C1 (amended): of the two handlers registered on the webhook
route, the second-registered one behaves as claimed — with the store
unreachable it enqueues the message (content, role, timestamp, source
tag) onto the destination session's local in-memory queue and returns
the call-id-correlated success acknowledgement — while the
first-registered handler requires the external store and answers
`"Redis not connected"` without enqueuing anything when it is
unreachable. -/
theorem C1_enqueue_fallback (now : String) (st : StoreState)
    (env : Option String) (cid msg sid : String) (role : Option String)
    (hconn : st.redis_connected = false) (hmsg : msg ≠ "") (hsid : sid ≠ "") :
    ((vapi_send_message_webhook_v2 now st
        (toolCallPayload env cid "send_chat_message"
          (.obj ⟨some msg, role, some sid⟩))).1.webhook_messages sid
      = st.webhook_messages sid
          ++ [⟨msg, role.getD "assistant", now, "voice-function", none⟩])
    ∧ ((vapi_send_message_webhook_v2 now st
        (toolCallPayload env cid "send_chat_message"
          (.obj ⟨some msg, role, some sid⟩))).2
      = .toolResults cid ("Message \x27" ++ msg ++
          "\x27 successfully routed to session " ++ sid))
    ∧ vapi_send_message_webhook_v1 now st
        (toolCallPayload env cid "send_chat_message"
          (.obj ⟨some msg, role, some sid⟩))
      = (st, .jsonError "Redis not connected") := by
  have hok : st.redis_connected = true → st.redis_ok = true := by
    intro h; rw [h] at hconn; cases hconn
  obtain ⟨st1, hmain, hc, _, hwm, _⟩ :=
    processToolCall_send_toolSid now st env
      ⟨some msg, role, some sid⟩ cid sid hok rfl hsid
  rw [v2_on_toolCallPayload, hmain]
  have hc1 : st1.redis_connected = false := by rw [hc, hconn]
  refine ⟨?_, rfl, v1_store_required now st env cid msg sid role hconn hmsg hsid⟩
  rw [storeMessageForSession_disconnected st1 sid _ hc1]
  simp [memAppend, hwm]

/-- Witness for C1's amended claim at a concrete disconnected state. -/
theorem C1_enqueue_fallback_witness :
    (vapi_send_message_webhook_v2 "t1" (exState false true [])
        (toolCallPayload none "call-1" "send_chat_message"
          (.obj ⟨some "Hello", none, some "abc123"⟩))).1.webhook_messages "abc123"
      = (exState false true []).webhook_messages "abc123"
          ++ [⟨"Hello", "assistant", "t1", "voice-function", none⟩] :=
  (C1_enqueue_fallback "t1" (exState false true []) none "call-1" "Hello"
    "abc123" none rfl (by decide) (by decide)).1

/-- Claim C3 counterexample: a tool-call for an unknown function name,
processed by the first-registered handler (which serves the route),
is answered with a bare error object that carries no `results` entry
and no `toolCallId` — an acknowledgement without call-id correlation. -/
theorem C3_uncorrelated_unknown_ack_counterexample :
    vapi_send_message_webhook_v1 "t1" (exState true true [])
        (toolCallPayload none "call-9" "lookup_weather" (.obj emptyArgMap))
      = (exState true true [], .jsonError "Unknown function: lookup_weather") := by
  simp [vapi_send_message_webhook_v1, toolCallPayload, messageObjOf]

/-- Claim C3 (amended): the second-registered handler answers every
recognized tool-call whose function name is not `send_chat_message`
(in both the new `message.toolCalls` shape and the legacy
`functionCall` shape) with a `results` acknowledgement carrying the
tool-call id and naming the original function; the first-registered
handler, which precedes it on the route, answers with an error object
that names the function but carries no call-id correlation. -/
theorem C3_unknown_tool_ack (now : String) (st : StoreState)
    (env : Option String) (cid name : String) (args : Args)
    (hname : name ≠ "send_chat_message") :
    vapi_send_message_webhook_v2 now st (toolCallPayload env cid name args)
      = (st, .toolResults cid
          ("Unknown tool call \x27" ++ name ++ "\x27 received"))
    ∧ vapi_send_message_webhook_v2 now st
        (legacyToolCallPayload env cid name args)
      = (st, .toolResults cid
          ("Unknown tool call \x27" ++ name ++ "\x27 received"))
    ∧ vapi_send_message_webhook_v1 now st (toolCallPayload env cid name args)
      = (st, .jsonError ("Unknown function: " ++ name)) := by
  refine ⟨?_, ?_, ?_⟩
  · rw [v2_on_toolCallPayload]; simp [processToolCall, hname]
  · rw [v2_on_legacyPayload]; simp [processToolCall, hname]
  · simp [vapi_send_message_webhook_v1, toolCallPayload, messageObjOf, hname]

/-- Witness for C3's amended claim at a concrete unknown tool-call. -/
theorem C3_unknown_tool_ack_witness :
    vapi_send_message_webhook_v2 "t1" (exState true true [])
        (toolCallPayload none "call-9" "lookup_weather" (.obj emptyArgMap))
      = (exState true true [], .toolResults "call-9"
          "Unknown tool call \x27lookup_weather\x27 received") :=
  (C3_unknown_tool_ack "t1" (exState true true []) none "call-9"
    "lookup_weather" (.obj emptyArgMap) (by decide)).1

/-- Unfolding the store-side broadcast loop: each key receives one copy
of the message per occurrence in the key list. -/
theorem redisBroadcastLoop_apply (keys : List String)
    (q : String → List MessageData) (m : MessageData) (k : String) :
    redisBroadcastLoop q keys m k
      = q k ++ List.replicate (keys.count k) m := by
  induction keys generalizing q with
  | nil => simp [redisBroadcastLoop]
  | cons k0 rest ih =>
    rw [redisBroadcastLoop, ih]
    by_cases hk : k = k0
    · subst hk
      simp [memAppend, List.count_cons, List.replicate_succ]
    · simp [memAppend, hk, List.count_cons]

/-- Unfolding the local-queue broadcast loop. -/
theorem memBroadcastLoop_apply (keys : List String)
    (q : String → List MessageData) (m : MessageData) (k : String) :
    memBroadcastLoop q keys m k
      = q k ++ List.replicate (keys.count k) m := by
  induction keys generalizing q with
  | nil => simp [memBroadcastLoop]
  | cons k0 rest ih =>
    rw [memBroadcastLoop, ih]
    by_cases hk : k = k0
    · subst hk
      simp [memAppend, List.count_cons, List.replicate_succ]
    · simp [memAppend, hk, List.count_cons]

/-- Claim C4 counterexample: a `send_chat_message` tool-call whose
session id sits only in the webhook envelope (top-level `sessionId`),
not in the tool arguments, is rejected by the first-registered handler
— which serves the route — with `"Missing session_id or message"`
instead of being routed to the envelope session. -/
theorem C4_envelope_ignored_counterexample :
    vapi_send_message_webhook_v1 "t1" (exState true true [])
        (toolCallPayload (some "env-sess") "call-2" "send_chat_message"
          (.obj ⟨some "Hello", none, none⟩))
      = (exState true true [], .jsonError "Missing session_id or message") := by
  simp [vapi_send_message_webhook_v1, toolCallPayload, messageObjOf]

/-- Claim C4 (amended): the second-registered handler resolves the
destination exactly as claimed — the tool-argument session id wins
when present and non-empty, else the envelope session id is used, and
direct/broadcast messages fan out to every currently registered
session (one copy per occurrence of the key in the registry), and a
directed tool-call message touches no queue other than its resolved
destination's — while the first-registered handler, which precedes it
on the route, uses only the tool-argument session id and rejects
envelope-only payloads. -/
theorem C4_session_resolution (now : String) (st : StoreState)
    (hok : st.redis_connected = true → st.redis_ok = true) :
    (∀ (env : Option String) (cid msg sid : String) (role : Option String),
      sid ≠ "" →
      (vapi_send_message_webhook_v2 now st
        (toolCallPayload env cid "send_chat_message"
          (.obj ⟨some msg, role, some sid⟩))).2
        = .toolResults cid ("Message \x27" ++ msg ++
            "\x27 successfully routed to session " ++ sid))
    ∧ (∀ (cid msg sid : String) (role : Option String),
      sid ≠ "" →
      (vapi_send_message_webhook_v2 now st
        (toolCallPayload (some sid) cid "send_chat_message"
          (.obj ⟨some msg, role, none⟩))).2
        = .toolResults cid ("Message \x27" ++ msg ++
            "\x27 successfully routed to session " ++ sid))
    ∧ (∀ (content : String) (role : Option String) (k : String),
      st.redis_connected = true → content ≠ "" →
      (vapi_send_message_webhook_v2 now st
        (directMessagePayload (some content) role)).1.redis_queues k
        = st.redis_queues k
          ++ List.replicate
              ((st.browser_session_mapping.map Prod.fst).count k)
              ⟨content, role.getD "assistant", now, "voice-function", none⟩
      ∧ (vapi_send_message_webhook_v2 now st
          (directMessagePayload (some content) role)).2
        = .ack true "Direct message processed and broadcasted to all sessions"
            none)
    ∧ (∀ (env : Option String) (cid msg sid k : String) (role : Option String),
      sid ≠ "" → k ≠ sid →
      (vapi_send_message_webhook_v2 now st
        (toolCallPayload env cid "send_chat_message"
          (.obj ⟨some msg, role, some sid⟩))).1.redis_queues k
        = st.redis_queues k
      ∧ (vapi_send_message_webhook_v2 now st
        (toolCallPayload env cid "send_chat_message"
          (.obj ⟨some msg, role, some sid⟩))).1.webhook_messages k
        = st.webhook_messages k) := by
  refine ⟨?_, ?_, ?_, ?_⟩
  · intro env cid msg sid role hsid
    obtain ⟨st1, hmain, _, _, _, _⟩ :=
      processToolCall_send_toolSid now st env ⟨some msg, role, some sid⟩
        cid sid hok rfl hsid
    rw [v2_on_toolCallPayload, hmain]
    rfl
  · intro cid msg sid role hsid
    obtain ⟨st1, hmain, _, _, _, _⟩ :=
      processToolCall_send_envSid now st ⟨some msg, role, none⟩
        cid sid hok rfl hsid
    rw [v2_on_toolCallPayload, hmain]
    rfl
  · intro content role k hconn hcontent
    have hok2 := hok hconn
    have hv : vapi_send_message_webhook_v2 now st
        (directMessagePayload (some content) role)
        = (broadcastStore st
            ⟨content, role.getD "assistant", now, "voice-function", none⟩,
           .ack true "Direct message processed and broadcasted to all sessions"
             none) := by
      simp [vapi_send_message_webhook_v2, directMessagePayload,
        messageObjOf, envelopeSessionId, hcontent]
    have hbc : broadcastStore st
        ⟨content, role.getD "assistant", now, "voice-function", none⟩
        = { st with redis_queues :=
            (redisBroadcastLoop st.redis_queues
              (st.browser_session_mapping.map Prod.fst)
              ⟨content, role.getD "assistant", now, "voice-function", none⟩) } := by
      simp [broadcastStore, hconn, hok2]
    rw [hv, hbc]
    exact ⟨redisBroadcastLoop_apply _ _ _ _, rfl⟩
  · intro env cid msg sid k role hsid hk
    obtain ⟨st1, hmain, hc, ho, hwm, hrq⟩ :=
      processToolCall_send_toolSid now st env ⟨some msg, role, some sid⟩
        cid sid hok rfl hsid
    rw [v2_on_toolCallPayload, hmain]
    cases hconn2 : st.redis_connected with
    | false =>
      rw [storeMessageForSession_disconnected st1 _ _ (by rw [hc, hconn2])]
      constructor
      · simp [hrq]
      · simp [memAppend, hk, hwm]
    | true =>
      rw [storeMessageForSession_connected st1 _ _ (by rw [hc, hconn2])
        (by rw [ho, hok hconn2])]
      constructor
      · simp [hk, hrq]
      · simp [hwm]

/-- Witness for C4's amended claim: tool-argument id wins over the
envelope id at a concrete payload carrying both. -/
theorem C4_session_resolution_witness :
    (vapi_send_message_webhook_v2 "t1" (exState true true [])
        (toolCallPayload (some "env-sess") "call-2" "send_chat_message"
          (.obj ⟨some "Hello", none, some "abc123"⟩))).2
      = .toolResults "call-2"
          "Message \x27Hello\x27 successfully routed to session abc123" :=
  (C4_session_resolution "t1" (exState true true []) (fun _ => rfl)).1
    (some "env-sess") "call-2" "Hello" "abc123" none (by decide)

/-- Claim C6: a `send_chat_message` tool-call with no usable session id
in the tool arguments (absent or empty) and none in the envelope — in
the new `message.toolCalls` shape or the legacy `functionCall` shape —
is answered with a structured failure that names the missing field
(`missing_session_id` in the second handler's data, "Missing
session_id" in the first handler's error), and the state — in
particular every store-side and local queue — is returned unchanged,
so nothing is enqueued anywhere. -/
theorem C6_missing_session_failure (now : String) (st : StoreState)
    (cid : String) (p : ArgMap) (hsid : p.session_id.getD "" = "") :
    vapi_send_message_webhook_v2 now st
        (toolCallPayload none cid "send_chat_message" (.obj p))
      = (st, .ack false
          "No session ID provided - cannot route message to specific chat"
          (some "missing_session_id"))
    ∧ vapi_send_message_webhook_v2 now st
        (legacyToolCallPayload none cid "send_chat_message" (.obj p))
      = (st, .ack false
          "No session ID provided - cannot route message to specific chat"
          (some "missing_session_id"))
    ∧ vapi_send_message_webhook_v1 now st
        (toolCallPayload none cid "send_chat_message" (.obj p))
      = (st, .jsonError "Missing session_id or message") := by
  refine ⟨?_, ?_, ?_⟩
  · rw [v2_on_toolCallPayload]
    simp [processToolCall, hsid]
  · rw [v2_on_legacyPayload]
    simp [processToolCall, hsid]
  · simp [vapi_send_message_webhook_v1, toolCallPayload, messageObjOf, hsid]

/-- Witness for C6 at a concrete payload with a message but no session
id anywhere. -/
theorem C6_missing_session_failure_witness :
    vapi_send_message_webhook_v2 "t1" (exState true true [])
        (toolCallPayload none "call-3" "send_chat_message"
          (.obj ⟨some "Hello", none, none⟩))
      = (exState true true [], .ack false
          "No session ID provided - cannot route message to specific chat"
          (some "missing_session_id")) :=
  (C6_missing_session_failure "t1" (exState true true []) "call-3"
    ⟨some "Hello", none, none⟩ rfl).1

/-- Data-frame extraction distributes over trace concatenation. -/
theorem tickEmits_append (a b : List TickEvent) :
    tickEmits (a ++ b) = tickEmits a ++ tickEmits b := by
  simp [tickEmits, List.filterMap_append]

/-- A batch of data frames carries exactly its messages, in order. -/
theorem tickEmits_map_emit (ms : List MessageData) :
    tickEmits (ms.map TickEvent.emit) = ms := by
  induction ms with
  | nil => rfl
  | cons m t ih => simp [tickEmits] at ih ⊢; exact ih

/-- Bookkeeping frames carry no data. -/
theorem tickEmits_nil : tickEmits [] = [] := rfl

/-- A keep-alive frame carries no data. -/
theorem tickEmits_keepAlive_cons (evs : List TickEvent) :
    tickEmits (TickEvent.keepAlive :: evs) = tickEmits evs := by
  simp [tickEmits]

/-- A store-deletion step carries no data. -/
theorem tickEmits_deleteRedis_cons (sid : String) (evs : List TickEvent) :
    tickEmits (TickEvent.deleteRedis sid :: evs) = tickEmits evs := by
  simp [tickEmits]

/-- A local-queue reset step carries no data. -/
theorem tickEmits_clearMem_cons (sid : String) (evs : List TickEvent) :
    tickEmits (TickEvent.clearMem sid :: evs) = tickEmits evs := by
  simp [tickEmits]

/-- One tick flushes exactly the session's current queue (store-side
when connected, local otherwise), in queue order. -/
theorem dispatchTick_emits (st : StoreState) (sid : String) (hb : Nat)
    (hok : st.redis_connected = true → st.redis_ok = true) :
    (dispatchTick st sid hb).map (fun r => tickEmits r.1)
      = some (if st.redis_connected then st.redis_queues sid
              else st.webhook_messages sid) := by
  cases hconn : st.redis_connected with
  | false =>
    by_cases hne : (st.webhook_messages sid).isEmpty
    · have hq := List.isEmpty_iff.mp hne
      simp only [dispatchTick, hconn, Bool.false_eq_true, if_false, hne,
        if_true, Option.map_some]
      split <;> simp [tickEmits, hq]
    · simp only [dispatchTick, hconn, Bool.false_eq_true, if_false, hne,
        Option.map_some]
      split <;>
        simp [tickEmits_append, tickEmits_map_emit, tickEmits_nil,
          tickEmits_keepAlive_cons, tickEmits_deleteRedis_cons,
          tickEmits_clearMem_cons]
  | true =>
    have hok2 := hok hconn
    by_cases hne : (st.redis_queues sid).isEmpty
    · have hq := List.isEmpty_iff.mp hne
      simp only [dispatchTick, get_session_messages, hconn, hok2,
        Bool.and_self, if_true, hne, Option.map_some]
      split <;> simp [tickEmits, hq]
    · simp only [dispatchTick, get_session_messages, delete_session_messages,
        hconn, hok2, Bool.and_self, if_true, hne, Bool.false_eq_true,
        if_false, Option.map_some]
      split <;>
        simp [tickEmits_append, tickEmits_map_emit, tickEmits_nil,
          tickEmits_keepAlive_cons, tickEmits_deleteRedis_cons,
          tickEmits_clearMem_cons]

/-- A sequence of enqueues preserves the connectivity flags and appends
the messages, in order, to the queue of the path in effect. -/
theorem enqueueAll_spec (sid : String) (ms : List MessageData)
    (st : StoreState) :
    (enqueueAll st sid ms).redis_connected = st.redis_connected
    ∧ (enqueueAll st sid ms).redis_ok = st.redis_ok
    ∧ (st.redis_connected = false →
        (enqueueAll st sid ms).webhook_messages sid
          = st.webhook_messages sid ++ ms)
    ∧ (st.redis_connected = true → st.redis_ok = true →
        (enqueueAll st sid ms).redis_queues sid
          = st.redis_queues sid ++ ms) := by
  induction ms generalizing st with
  | nil =>
    exact ⟨rfl, rfl, fun _ => by simp [enqueueAll],
      fun _ _ => by simp [enqueueAll]⟩
  | cons m rest ih =>
    have hfold : enqueueAll st sid (m :: rest)
        = enqueueAll (storeMessageForSession st sid m) sid rest := rfl
    obtain ⟨ih1, ih2, ih3, ih4⟩ := ih (storeMessageForSession st sid m)
    obtain ⟨hf1, hf2⟩ := storeMessageForSession_flags st sid m
    refine ⟨by rw [hfold, ih1, hf1], by rw [hfold, ih2, hf2], ?_, ?_⟩
    · intro hconn
      rw [hfold, ih3 (by rw [hf1, hconn]),
        storeMessageForSession_disconnected st sid m hconn]
      simp [memAppend]
    · intro hconn hok
      rw [hfold, ih4 (by rw [hf1, hconn]) (by rw [hf2, hok]),
        storeMessageForSession_connected st sid m hconn hok]
      simp

/-- Claim C7: FIFO per session.  The relay's enqueue block appends the
message at the tail of the session's queue (store-side or local,
depending on the path); one dispatcher tick flushes the queue exactly
in queue order; and composing the two, any batch of messages enqueued
for a session is emitted by the next tick after the queue's previous
content, in enqueue order — on either path. -/
theorem C7_fifo_per_session (st : StoreState) (sid : String) :
    (∀ m : MessageData,
      (st.redis_connected = false →
        (storeMessageForSession st sid m).webhook_messages sid
          = st.webhook_messages sid ++ [m])
      ∧ (st.redis_connected = true → st.redis_ok = true →
        (storeMessageForSession st sid m).redis_queues sid
          = st.redis_queues sid ++ [m]))
    ∧ (∀ hb : Nat, st.redis_ok = true →
      (dispatchTick st sid hb).map (fun r => tickEmits r.1)
        = some (if st.redis_connected then st.redis_queues sid
                else st.webhook_messages sid))
    ∧ (∀ (ms : List MessageData) (hb : Nat),
      st.redis_connected = false →
      (dispatchTick (enqueueAll st sid ms) sid hb).map (fun r => tickEmits r.1)
        = some (st.webhook_messages sid ++ ms))
    ∧ (∀ (ms : List MessageData) (hb : Nat),
      st.redis_connected = true → st.redis_ok = true →
      (dispatchTick (enqueueAll st sid ms) sid hb).map (fun r => tickEmits r.1)
        = some (st.redis_queues sid ++ ms)) := by
  refine ⟨?_, ?_, ?_, ?_⟩
  · intro m
    constructor
    · intro hconn
      rw [storeMessageForSession_disconnected st sid m hconn]
      simp [memAppend]
    · intro hconn hok
      rw [storeMessageForSession_connected st sid m hconn hok]
      simp
  · intro hb hok
    exact dispatchTick_emits st sid hb (fun _ => hok)
  · intro ms hb hconn
    obtain ⟨h1, h2, h3, _⟩ := enqueueAll_spec sid ms st
    have hconn2 : (enqueueAll st sid ms).redis_connected = false := by
      rw [h1, hconn]
    rw [dispatchTick_emits (enqueueAll st sid ms) sid hb
      (fun h => absurd h (by simp [hconn2]))]
    rw [hconn2, h3 hconn]
    simp
  · intro ms hb hconn hok
    obtain ⟨h1, h2, _, h4⟩ := enqueueAll_spec sid ms st
    have hconn2 : (enqueueAll st sid ms).redis_connected = true := by
      rw [h1, hconn]
    rw [dispatchTick_emits (enqueueAll st sid ms) sid hb
      (fun _ => by rw [h2, hok])]
    rw [hconn2, h4 hconn hok]
    simp

/-- Witness for C7 on the in-memory path: one enqueue after the
existing queue is flushed after the earlier message, in order. -/
theorem C7_fifo_per_session_witness :
    (dispatchTick (enqueueAll exStM "abc123"
        [⟨"Second", "assistant", "t2", "voice-function", none⟩]) "abc123" 0).map
        (fun r => tickEmits r.1)
      = some (exStM.webhook_messages "abc123"
          ++ [⟨"Second", "assistant", "t2", "voice-function", none⟩]) :=
  (C7_fifo_per_session exStM "abc123").2.2.1
    [⟨"Second", "assistant", "t2", "voice-function", none⟩] 0 rfl

/-- Claim C8: webhook-time session lookup checks local memory first
(no store access, no state change on a local hit); on a local miss with
the store connected it queries the store and, on a hit, backfills local
memory before returning; and when the session is absent everywhere the
lookup returns "not found" rather than raising, after which the relay
still enqueues the message for that session id and returns the
call-id-correlated success acknowledgement. -/
theorem C8_lookup_backfill (now : String) (st : StoreState)
    (sid : String) (info : SessionData) :
    (dictGet st.browser_session_mapping sid = some info →
      sessionLookup st sid = some (some info, st))
    ∧ (dictGet st.browser_session_mapping sid = none →
       st.redis_connected = true → st.redis_ok = true →
       st.redis_sessions sid = some info →
      sessionLookup st sid
        = some (some info,
            { st with browser_session_mapping :=
                dictInsert st.browser_session_mapping sid info })
      ∧ dictGet (dictInsert st.browser_session_mapping sid info) sid
        = some info)
    ∧ (∀ (env : Option String) (cid msg : String) (role : Option String),
       dictGet st.browser_session_mapping sid = none →
       st.redis_connected = true → st.redis_ok = true →
       st.redis_sessions sid = none → sid ≠ "" →
      sessionLookup st sid = some (none, st)
      ∧ (vapi_send_message_webhook_v2 now st
          (toolCallPayload env cid "send_chat_message"
            (.obj ⟨some msg, role, some sid⟩))).2
        = .toolResults cid ("Message \x27" ++ msg ++
            "\x27 successfully routed to session " ++ sid)
      ∧ (vapi_send_message_webhook_v2 now st
          (toolCallPayload env cid "send_chat_message"
            (.obj ⟨some msg, role, some sid⟩))).1.redis_queues sid
        = st.redis_queues sid
            ++ [⟨msg, role.getD "assistant", now, "voice-function", none⟩]) := by
  refine ⟨?_, ?_, ?_⟩
  · intro hmem
    simp [sessionLookup, hmem]
  · intro hmem hconn hok hs
    refine ⟨?_, dictGet_dictInsert_self _ _ _⟩
    simp [sessionLookup, hmem, hconn, get_session, hok, hs]
  · intro env cid msg role hmem hconn hok hs hne
    refine ⟨by simp [sessionLookup, hmem, hconn, get_session, hok, hs], ?_, ?_⟩
    all_goals
      obtain ⟨st1, hmain, hc, ho, _, hrq⟩ :=
        processToolCall_send_toolSid now st env ⟨some msg, role, some sid⟩
          cid sid (fun _ => hok) rfl hne
    · rw [v2_on_toolCallPayload, hmain]
      rfl
    · rw [v2_on_toolCallPayload, hmain]
      rw [storeMessageForSession_connected st1 sid _ (by rw [hc, hconn])
        (by rw [ho, hok])]
      simp [hrq]

/-- Witness for C8: store hit with backfill at a concrete state. -/
theorem C8_lookup_backfill_witness :
    sessionLookup
        ⟨true, true, fun k => if k = "abc123" then some exSessionData else none,
         fun _ => [], [], fun _ => [], fun _ => false⟩ "abc123"
      = some (some exSessionData,
          { (⟨true, true,
              fun k => if k = "abc123" then some exSessionData else none,
              fun _ => [], [], fun _ => [], fun _ => false⟩ : StoreState) with
            browser_session_mapping := dictInsert [] "abc123" exSessionData }) :=
  ((C8_lookup_backfill "t1"
      ⟨true, true, fun k => if k = "abc123" then some exSessionData else none,
       fun _ => [], [], fun _ => [], fun _ => false⟩
      "abc123" exSessionData).2.1 rfl rfl rfl (by simp)).1
